import Mathlib

/-!
Shallow embedding of the MortgageCalc web application core:
the calculation engine (src/utils/mortgageCalculation.ts), the zod
validation schema (src/components/CalculationSection.tsx), and the
zustand store (src/store/formStore.ts).

JavaScript numbers are modelled as `JSNum`: either NaN, a signed
infinity, or an exact rational. Decimal literals and the arithmetic
reachable in this program are modelled exactly over ℚ (no rounding);
the places where IEEE-754 special values matter (parseFloat producing
Infinity or NaN, the zero-rate division by zero) are modelled
explicitly and called out at the theorems that depend on them.

Rational arithmetic is written with the helpers `qadd`, `qsub`, `qmul`,
`qdiv`, `qpow` below, which compute directly on numerator and
denominator and therefore reduce in the kernel; the lemmas `qadd_eq`,
`qsub_eq`, `qmul_eq`, `qdiv_eq`, `qpow_eq` prove each one equal to the
corresponding field operation of ℚ, so every definition can be read as
ordinary rational arithmetic.
-/

/-- Addition on ℚ computed from numerators and denominators. -/
def qadd (a b : ℚ) : ℚ := mkRat (a.num * b.den + b.num * a.den) (a.den * b.den)

/-- Subtraction on ℚ computed from numerators and denominators. -/
def qsub (a b : ℚ) : ℚ := mkRat (a.num * b.den - b.num * a.den) (a.den * b.den)

/-- Multiplication on ℚ computed from numerators and denominators. -/
def qmul (a b : ℚ) : ℚ := mkRat (a.num * b.num) (a.den * b.den)

/-- Inverse on ℚ computed from numerator and denominator; the inverse
of 0 is 0, the same convention as the field inverse. -/
def qinv (a : ℚ) : ℚ := Rat.divInt a.den a.num

/-- Division on ℚ; q / 0 = 0 (where IEEE-754 produces NaN or a signed
infinity — the theorems that touch a zero denominator account for this
explicitly). -/
def qdiv (a b : ℚ) : ℚ := qmul a (qinv b)

/-- Natural-number power on ℚ by iterated multiplication. -/
def qpow (b : ℚ) : ℕ → ℚ
  | 0 => 1
  | n + 1 => qmul (qpow b n) b

theorem qadd_eq (a b : ℚ) : qadd a b = a + b := (Rat.add_def' a b).symm

theorem qsub_eq (a b : ℚ) : qsub a b = a - b := (Rat.sub_def' a b).symm

theorem qmul_eq (a b : ℚ) : qmul a b = a * b := by
  rw [qmul, Rat.mul_def, Rat.normalize_eq_mkRat]

theorem qinv_eq (a : ℚ) : qinv a = a.inv := (Rat.inv_def a).symm

theorem qdiv_eq (a b : ℚ) : qdiv a b = a / b := by
  rw [qdiv, qmul_eq, qinv_eq]
  exact (Rat.div_def a b).symm

theorem qpow_eq (b : ℚ) (n : ℕ) : qpow b n = b ^ n := by
  induction n with
  | zero => rw [qpow, pow_zero]
  | succ k ih => rw [qpow, qmul_eq, ih, pow_succ]

/-- Model of a JavaScript number as used by this program: NaN, a signed
infinity (`inf true` is +Infinity), or an exact rational value. -/
inductive JSNum where
  | nan : JSNum
  | inf : Bool → JSNum
  | num : ℚ → JSNum
deriving DecidableEq

/-- Models the JavaScript `isNaN(v)` test on an already-numeric value. -/
def JSNum.isNaN : JSNum → Bool
  | JSNum.nan => true
  | JSNum.inf _ => false
  | JSNum.num _ => false

/-- True exactly on finite values (neither NaN nor an infinity). -/
def JSNum.isFinite : JSNum → Bool
  | JSNum.num _ => true
  | JSNum.nan => false
  | JSNum.inf _ => false

/-- Models the JavaScript comparison `v >= 0`: false on NaN, true on
+Infinity, false on -Infinity, and the rational order on finite values. -/
def JSNum.nonneg : JSNum → Bool
  | JSNum.nan => false
  | JSNum.inf b => b
  | JSNum.num q => decide (0 ≤ q)

/-- ASCII whitespace as stripped by JavaScript string trimming and by
the leading-whitespace step of parseFloat (the Unicode space characters
are not reachable from this repository and are not modelled). -/
def isSpaceChar (c : Char) : Bool :=
  c = ' ' || c = '\t' || c = '\n' || c = '\r' || c = '\x0b' || c = '\x0c'

/-- Reads a maximal run of decimal digits, returning the accumulated
value, the number of digits read, and the rest of the characters.
`v` and `n` are the accumulator value and digit count so far. -/
def readDigitsAux : ℕ → ℕ → List Char → ℕ × ℕ × List Char
  | v, n, [] => (v, n, [])
  | v, n, c :: cs =>
    if c.isDigit then readDigitsAux (10 * v + (c.toNat - 48)) (n + 1) cs
    else (v, n, c :: cs)

/-- Models the optional exponent part of the parseFloat grammar
(`e` or `E`, optional sign, digits). An exponent marker not followed by
a digit is not part of the longest valid numeric prefix and
contributes exponent 0, matching parseFloat. -/
def readExp : List Char → ℤ
  | [] => 0
  | c :: cs =>
    if c = 'e' || c = 'E' then
      match cs with
      | '+' :: rest =>
        let r := readDigitsAux 0 0 rest
        if r.2.1 = 0 then 0 else (r.1 : ℤ)
      | '-' :: rest =>
        let r := readDigitsAux 0 0 rest
        if r.2.1 = 0 then 0 else -(r.1 : ℤ)
      | rest =>
        let r := readDigitsAux 0 0 rest
        if r.2.1 = 0 then 0 else (r.1 : ℤ)
    else 0

/-- Multiplies a rational by a signed power of ten, using only natural
number exponents so that it reduces in the kernel. -/
def mulPow10 (q : ℚ) (e : ℤ) : ℚ :=
  if 0 ≤ e then qmul q (qpow 10 e.toNat) else qdiv q (qpow 10 (-e).toNat)

/-- Models the unsigned decimal-literal part of parseFloat: digits,
an optional fraction, and an optional exponent, by longest valid
prefix; `none` when no digit is present (parseFloat returns NaN). -/
def parseDecimal (cs : List Char) : Option ℚ :=
  let r1 := readDigitsAux 0 0 cs
  match r1.2.2 with
  | '.' :: rest =>
    let r2 := readDigitsAux 0 0 rest
    if r1.2.1 + r2.2.1 = 0 then none
    else some (mulPow10 (qadd (r1.1 : ℚ) (qdiv (r2.1 : ℚ) (qpow 10 r2.2.1))) (readExp r2.2.2))
  | _ =>
    if r1.2.1 = 0 then none
    else some (mulPow10 (r1.1 : ℚ) (readExp r1.2.2))

/-- Models the JavaScript global `parseFloat`: strip leading whitespace,
read an optional sign, then either the literal string Infinity or the
longest decimal-literal prefix; NaN when no valid prefix exists. -/
def parseFloat (s : String) : JSNum :=
  let cs := s.toList.dropWhile (fun c => isSpaceChar c)
  let p :=
    match cs with
    | '-' :: r => (true, r)
    | '+' :: r => (false, r)
    | _ => (false, cs)
  if p.2.take 8 = "Infinity".toList then JSNum.inf (!p.1)
  else
    match parseDecimal p.2 with
    | some q => JSNum.num (if p.1 then -q else q)
    | none => JSNum.nan

/-- Models JavaScript `String.prototype.trim` (ASCII whitespace). -/
def jsTrim (s : String) : String :=
  String.mk (((s.toList.dropWhile (fun c => isSpaceChar c)).reverse.dropWhile
    (fun c => isSpaceChar c)).reverse)

deriving instance DecidableEq for Except

/-- Models one numeric field of the zod schema in
src/components/CalculationSection.tsx: refine rejecting an empty
trimmed string with the required-field message, then transform by
parseFloat, then refine requiring a non-NaN, non-negative value with
the invalid-number message. -/
def validateNumericField (requiredMsg invalidMsg raw : String) : Except String JSNum :=
  if jsTrim raw = "" then Except.error requiredMsg
  else
    let v := parseFloat raw
    if !v.isNaN && v.nonneg then Except.ok v
    else Except.error invalidMsg

/-- Models the mortgageType field of the zod schema: a nullable string
refined to be non-null, with a required-field message on null. -/
def validateMortgageType (raw : Option String) : Except String String :=
  match raw with
  | none => Except.error "Mortgage Type is required"
  | some t => Except.ok t

/-- Raw form fields as react-hook-form hands them to the resolver:
the three numeric inputs are text, the radio group is null until an
option is chosen. -/
structure RawFields where
  mortgageAmount : String
  interestRate : String
  mortgageTerm : String
  mortgageType : Option String
deriving DecidableEq

/-- Output of a successful schema parse: the three numeric fields carry
the parseFloat values (JavaScript numbers, so possibly Infinity), the
type carries the selected label. -/
structure ValidatedValues where
  mortgageAmount : JSNum
  interestRate : JSNum
  mortgageTerm : JSNum
  mortgageType : String
deriving DecidableEq

/-- Error contribution of one field to the field-keyed error map. -/
def fieldErrors {α : Type} (field : String) : Except String α → List (String × String)
  | Except.error m => [(field, m)]
  | Except.ok _ => []

/-- Models `schema.parse` on the whole form: every field is validated
independently and the errors are additive; success produces the four
validated values, failure produces the field-keyed error map. -/
def validateForm (raw : RawFields) : Except (List (String × String)) ValidatedValues :=
  let ra := validateNumericField "Mortgage Amount is required"
    "Mortgage Amount must be a positive number" raw.mortgageAmount
  let rr := validateNumericField "Interest Rate is required"
    "Interest Rate must be a positive number" raw.interestRate
  let rt := validateNumericField "Mortgage Term is required"
    "Mortgage Term must be a positive number" raw.mortgageTerm
  let rty := validateMortgageType raw.mortgageType
  match ra, rr, rt, rty with
  | Except.ok a, Except.ok r, Except.ok t, Except.ok ty =>
    Except.ok ⟨a, r, t, ty⟩
  | _, _, _, _ =>
    Except.error (fieldErrors "mortgageAmount" ra ++ fieldErrors "interestRate" rr ++
      fieldErrors "mortgageTerm" rt ++ fieldErrors "mortgageType" rty)

/-- FormValues from src/types/index.ts: the normalized calculation
request living in the store. The numeric fields of a well-formed
request are finite, modelled as exact rationals. -/
structure FormValues where
  mortgageAmount : ℚ
  interestRate : ℚ
  mortgageTerm : ℚ
  mortgageType : String
deriving DecidableEq

/-- The pair returned by the calculation engine. -/
structure CalcResult where
  monthlyPayment : ℚ
  totalRepayment : ℚ
deriving DecidableEq

/-- Models `Math.pow` for the exponents reachable in this program:
when the exponent is a non-negative integer the result is the iterated
product; a fractional or negative exponent would leave ℚ (a real root)
and is mapped to a default, unused by every theorem below. -/
def jsPow (b : ℚ) (e : ℚ) : ℚ :=
  if e.den = 1 ∧ 0 ≤ e.num then qpow b e.num.toNat else 0

/-- The calculation engine, transcribed from
src/utils/mortgageCalculation.ts: null data gives zeros, otherwise
monthlyRate = interestRate/100/12, totalMonths = mortgageTerm*12, the
standard amortization quotient, and totalRepayment =
monthlyPayment * totalMonths. In ℚ a division by zero yields 0 where
the JavaScript code yields NaN; the zero-rate theorems below account
for this explicitly by exhibiting the zero denominator itself. -/
def MortgageCalculation (calculationData : Option FormValues) : CalcResult :=
  match calculationData with
  | none => ⟨0, 0⟩
  | some d =>
    let monthlyRate := qdiv (qdiv d.interestRate 100) 12
    let totalMonths := qmul d.mortgageTerm 12
    let monthlyPayment :=
      qdiv (qmul d.mortgageAmount (qmul monthlyRate (jsPow (qadd 1 monthlyRate) totalMonths)))
        (qsub (jsPow (qadd 1 monthlyRate) totalMonths) 1)
    let totalRepayment := qmul monthlyPayment totalMonths
    ⟨monthlyPayment, totalRepayment⟩

/-- The denominator of the amortization quotient of the engine at a
given request: `Math.pow(1 + monthlyRate, totalMonths) - 1`. -/
def amortDenominator (r : FormValues) : ℚ :=
  qsub (jsPow (qadd 1 (qdiv (qdiv r.interestRate 100) 12)) (qmul r.mortgageTerm 12)) 1

/-- The amortization formula exactly as the specification states it
(section 4.2), written independently of the engine transcription:
monthlyRate and totalPayments, the monthlyPayment quotient, and
totalRepayment = monthlyPayment * totalPayments. -/
def computeSpec (r : FormValues) : CalcResult :=
  let monthlyRate := qdiv (qdiv r.interestRate 100) 12
  let totalPayments := qmul r.mortgageTerm 12
  let monthlyPayment :=
    qdiv (qmul r.mortgageAmount (qmul monthlyRate (jsPow (qadd 1 monthlyRate) totalPayments)))
      (qsub (jsPow (qadd 1 monthlyRate) totalPayments) 1)
  ⟨monthlyPayment, qmul monthlyPayment totalPayments⟩

/-- A well-formed CalculationRequest per the data model of the
specification: the three numeric fields are non-negative and the type
is one of the two permitted labels. -/
def WellFormed (r : FormValues) : Prop :=
  0 ≤ r.mortgageAmount ∧ 0 ≤ r.interestRate ∧ 0 ≤ r.mortgageTerm ∧
    (r.mortgageType = "Repayment" ∨ r.mortgageType = "Interest Only")

/-- The zustand store state from src/store/formStore.ts, generic in the
type of the stored data so the same transitions serve both the
engine-facing FormValues and the validator output. -/
structure StoreState (α : Type) where
  calculationData : Option α
  showResult : Bool
deriving DecidableEq

/-- Initial store state: `calculationData: null, showResult: false`. -/
def initialStore {α : Type} : StoreState α := ⟨none, false⟩

/-- Models `setCalculationData(data)`: zustand set merges the new
calculationData into the state, leaving showResult unchanged. -/
def setCalculationData {α : Type} (data : α) (s : StoreState α) : StoreState α :=
  ⟨some data, s.showResult⟩

/-- Models `setShowResult(b)`: merges the new flag, leaving the stored
data unchanged. -/
def setShowResult {α : Type} (b : Bool) (s : StoreState α) : StoreState α :=
  ⟨s.calculationData, b⟩

/-- Models `clearCalculationData()`: resets both fields to their
initial values in one set call. -/
def clearCalculationData {α : Type} (_ : StoreState α) : StoreState α :=
  ⟨none, false⟩

/-- The Submit transition as performed by onSubmit in
src/components/CalculationSection.tsx: `setCalculationData(data)` then
`setShowResult(true)`. -/
def submit {α : Type} (r : α) (s : StoreState α) : StoreState α :=
  setShowResult true (setCalculationData r s)

/-- Reading the current result: the ResultSection component invokes the
engine on the calculationData currently in the store. -/
def getCurrentResult (s : StoreState FormValues) : CalcResult :=
  MortgageCalculation s.calculationData

/-- The two transitions of the Result State Holder contract. -/
inductive StoreOp (α : Type) where
  | submitOp (r : α) : StoreOp α
  | clearOp : StoreOp α

/-- Applies one transition to a store state. -/
def applyOp {α : Type} : StoreOp α → StoreState α → StoreState α
  | StoreOp.submitOp r, s => submit r s
  | StoreOp.clearOp, s => clearCalculationData s

/-- Runs a sequence of transitions, first element first. -/
def runOps {α : Type} : List (StoreOp α) → StoreState α → StoreState α
  | [], s => s
  | op :: ops, s => runOps ops (applyOp op s)

/-- Models the whole submission pipeline
`handleSubmit(onSubmit, onError)`: the resolver runs the schema; on
success onSubmit stores the data and shows the result with an empty
error map; on failure onError receives the field-keyed errors and the
store is not touched. -/
def submitRawFields (raw : RawFields) (s : StoreState ValidatedValues) :
    StoreState ValidatedValues × List (String × String) :=
  match validateForm raw with
  | Except.ok data => (setShowResult true (setCalculationData data s), [])
  | Except.error es => (s, es)

/-- Helper: a numeric field that validates successfully carries a value
that passed the final refine, so it is non-NaN and non-negative. -/
theorem validateNumericField_ok {rm im raw : String} {v : JSNum}
    (h : validateNumericField rm im raw = Except.ok v) :
    (!v.isNaN && v.nonneg) = true := by
  unfold validateNumericField at h
  split at h
  · cases h
  · simp only [] at h
    split at h
    · cases h
      assumption
    · cases h

/-- Helper: the error map of a failed whole-form validation is never
empty — the match falls through only when some field produced an
error, and that field contributes an entry. -/
theorem validateForm_error_nonempty {raw : RawFields} {es : List (String × String)}
    (h : validateForm raw = Except.error es) : es ≠ [] := by
  unfold validateForm at h
  revert h
  cases validateNumericField "Mortgage Amount is required"
      "Mortgage Amount must be a positive number" raw.mortgageAmount <;>
    cases validateNumericField "Interest Rate is required"
        "Interest Rate must be a positive number" raw.interestRate <;>
      cases validateNumericField "Mortgage Term is required"
          "Mortgage Term must be a positive number" raw.mortgageTerm <;>
        cases validateMortgageType raw.mortgageType <;>
          intro h <;> (try cases h) <;> simp [fieldErrors]

/-- Helper: the Submit and Clear transitions both preserve the
coupling of the visibility flag with the presence of a request. -/
theorem runOps_preserves_visible_iff_present {α : Type} (ops : List (StoreOp α))
    (s : StoreState α) (h : s.showResult = s.calculationData.isSome) :
    (runOps ops s).showResult = (runOps ops s).calculationData.isSome := by
  induction ops generalizing s with
  | nil => exact h
  | cons op rest ih =>
    cases op with
    | submitOp r => exact ih (applyOp (StoreOp.submitOp r) s) rfl
    | clearOp => exact ih (applyOp StoreOp.clearOp s) rfl

/-- Claim C1: for every well-formed CalculationRequest with a present
request, the engine returns exactly the amortization formula of the
specification — monthlyRate = annualRatePercent/100/12, totalPayments =
termYears*12, monthlyPayment the standard quotient, and totalRepayment
= monthlyPayment * totalPayments (`computeSpec` is that formula
transcribed from the specification text). -/
theorem c1_engine_matches_spec_formula (r : FormValues) (h : WellFormed r) :
    MortgageCalculation (some r) = computeSpec r := rfl

/-- Witness for C1 at the specification scenario principal 200000,
rate 5, term 25 years, type Repayment. -/
theorem c1_engine_matches_spec_formula_witness :
    WellFormed ⟨200000, 5, 25, "Repayment"⟩ ∧
      MortgageCalculation (some ⟨200000, 5, 25, "Repayment"⟩) =
        computeSpec ⟨200000, 5, 25, "Repayment"⟩ :=
  ⟨⟨by decide, by decide, by decide, Or.inl rfl⟩,
    c1_engine_matches_spec_formula ⟨200000, 5, 25, "Repayment"⟩
      ⟨by decide, by decide, by decide, Or.inl rfl⟩⟩

set_option maxRecDepth 4000 in
/-- Claim C2 concerns the zero-rate case: at annualRatePercent = 0 the
denominator `Math.pow(1 + 0, totalMonths) - 1` of the engine formula is
exactly 0, so the code divides by zero — in JavaScript 0/0 is NaN, and
the engine does not return principal/(termYears*12) as the claim
requires (in this rational model, where division by zero yields 0, the
result is ⟨0, 0⟩, not ⟨100000/120, 100000⟩). The claim describes the
intended post-fix behavior that the specification mandates; the code
violates it. -/
theorem c2_zero_rate_division_by_zero :
    amortDenominator ⟨100000, 0, 10, "Repayment"⟩ = 0 ∧
      MortgageCalculation (some ⟨100000, 0, 10, "Repayment"⟩) = ⟨0, 0⟩ ∧
      MortgageCalculation (some ⟨100000, 0, 10, "Repayment"⟩) ≠ ⟨mkRat 100000 120, 100000⟩ :=
  ⟨by decide, by decide, by decide⟩

/-- Counterexample to claim C3: validation succeeds on the raw fields
("Infinity", "5", "10", Repayment) — parseFloat("Infinity") is
Infinity, which passes `!isNaN(val) && val >= 0` — yet the produced
mortgageAmount is not finite. -/
theorem c3_counterexample_infinity_validates :
    validateForm ⟨"Infinity", "5", "10", some "Repayment"⟩ =
        Except.ok ⟨JSNum.inf true, JSNum.num 5, JSNum.num 10, "Repayment"⟩ ∧
      (JSNum.inf true).isFinite = false :=
  ⟨by decide, by decide⟩

/-- Claim C3 as amended: for every tuple of raw field values on which
validation succeeds, each of the three numeric fields of the produced
request is a non-NaN number that is >= 0 (it may be +Infinity; it is
not guaranteed finite). -/
theorem c3_validated_fields_not_nan_nonneg (raw : RawFields) (v : ValidatedValues)
    (h : validateForm raw = Except.ok v) :
    (!v.mortgageAmount.isNaN && v.mortgageAmount.nonneg) = true ∧
      (!v.interestRate.isNaN && v.interestRate.nonneg) = true ∧
      (!v.mortgageTerm.isNaN && v.mortgageTerm.nonneg) = true := by
  unfold validateForm at h
  revert h
  cases hra : validateNumericField "Mortgage Amount is required"
      "Mortgage Amount must be a positive number" raw.mortgageAmount <;>
    cases hrr : validateNumericField "Interest Rate is required"
        "Interest Rate must be a positive number" raw.interestRate <;>
      cases hrt : validateNumericField "Mortgage Term is required"
          "Mortgage Term must be a positive number" raw.mortgageTerm <;>
        cases validateMortgageType raw.mortgageType <;>
          intro h <;> cases h
  exact ⟨validateNumericField_ok hra, validateNumericField_ok hrr,
    validateNumericField_ok hrt⟩

/-- Witness for the amended C3 on a concrete successful validation. -/
theorem c3_validated_fields_not_nan_nonneg_witness :
    validateForm ⟨"1000", "5.5", "25", some "Repayment"⟩ =
        Except.ok ⟨JSNum.num 1000, JSNum.num (mkRat 11 2), JSNum.num 25, "Repayment"⟩ ∧
      ((!(JSNum.num 1000).isNaN && (JSNum.num 1000).nonneg) = true ∧
        (!(JSNum.num (mkRat 11 2)).isNaN && (JSNum.num (mkRat 11 2)).nonneg) = true ∧
        (!(JSNum.num 25).isNaN && (JSNum.num 25).nonneg) = true) :=
  ⟨by decide,
    c3_validated_fields_not_nan_nonneg ⟨"1000", "5.5", "25", some "Repayment"⟩
      ⟨JSNum.num 1000, JSNum.num (mkRat 11 2), JSNum.num 25, "Repayment"⟩ (by decide)⟩

/-- Claim C4: submitting a well-formed request r on any store state and
then reading the current result yields exactly the engine applied to r
— the stored request is the submitted one, unchanged. -/
theorem c4_submit_then_get_is_compute (r : FormValues) (s : StoreState FormValues)
    (h : WellFormed r) :
    getCurrentResult (submit r s) = MortgageCalculation (some r) := rfl

/-- Witness for C4 at a concrete request on the initial store state. -/
theorem c4_submit_then_get_is_compute_witness :
    WellFormed ⟨100000, 4, 20, "Repayment"⟩ ∧
      getCurrentResult (submit ⟨100000, 4, 20, "Repayment"⟩ initialStore) =
        MortgageCalculation (some ⟨100000, 4, 20, "Repayment"⟩) :=
  ⟨⟨by decide, by decide, by decide, Or.inl rfl⟩,
    c4_submit_then_get_is_compute ⟨100000, 4, 20, "Repayment"⟩ initialStore
      ⟨by decide, by decide, by decide, Or.inl rfl⟩⟩

/-- Claim C5: in every state reachable from the initial state (no
request, result hidden) by any sequence of Submit and Clear
transitions, the result is visible exactly when a request is present. -/
theorem c5_result_visible_iff_request_present {α : Type} (ops : List (StoreOp α)) :
    ((runOps ops (initialStore : StoreState α)).showResult = true ↔
      (runOps ops (initialStore : StoreState α)).calculationData.isSome = true) := by
  rw [runOps_preserves_visible_iff_present ops initialStore rfl]

/-- Claim C6: with no request present the engine returns the defined
default ⟨0, 0⟩ — a normal value, not an error. -/
theorem c6_compute_absent_returns_zeros : MortgageCalculation none = ⟨0, 0⟩ := rfl

/-- Claim C7: Clear is idempotent — clearing twice equals clearing
once, and the cleared state is exactly (no request, result hidden). -/
theorem c7_clear_idempotent {α : Type} (s : StoreState α) :
    clearCalculationData (clearCalculationData s) = clearCalculationData s ∧
      clearCalculationData s = ⟨none, false⟩ :=
  ⟨rfl, rfl⟩

/-- Claim C8: the computed result does not depend on mortgageType —
two requests agreeing on the three numeric fields produce identical
results whatever their types. -/
theorem c8_result_independent_of_mortgage_type (r₁ r₂ : FormValues)
    (ha : r₁.mortgageAmount = r₂.mortgageAmount)
    (hr : r₁.interestRate = r₂.interestRate)
    (ht : r₁.mortgageTerm = r₂.mortgageTerm) :
    MortgageCalculation (some r₁) = MortgageCalculation (some r₂) := by
  cases r₁
  cases r₂
  cases ha
  cases hr
  cases ht
  rfl

/-- Witness for C8: same numbers, Repayment versus Interest Only. -/
theorem c8_result_independent_of_mortgage_type_witness :
    MortgageCalculation (some ⟨1000, 5, 10, "Repayment"⟩) =
      MortgageCalculation (some ⟨1000, 5, 10, "Interest Only"⟩) :=
  c8_result_independent_of_mortgage_type ⟨1000, 5, 10, "Repayment"⟩
    ⟨1000, 5, 10, "Interest Only"⟩ rfl rfl rfl

/-- Claim C9: submission is atomic — for every tuple of raw field
values, either validation succeeds and the store holds exactly the
validated request with the result visible, or validation fails with a
non-empty field-keyed error map and the store is left exactly
unchanged; no partially updated state is observable. -/
theorem c9_submission_atomic (raw : RawFields) (s : StoreState ValidatedValues) :
    (∃ data, validateForm raw = Except.ok data ∧
        submitRawFields raw s = (⟨some data, true⟩, [])) ∨
      (∃ es, validateForm raw = Except.error es ∧ es ≠ [] ∧
        submitRawFields raw s = (s, es)) := by
  cases h : validateForm raw with
  | ok data =>
    exact Or.inl ⟨data, rfl, by simp [submitRawFields, h, setShowResult, setCalculationData]⟩
  | error es =>
    exact Or.inr ⟨es, rfl, validateForm_error_nonempty h, by simp [submitRawFields, h]⟩

/-- Claim C10: every raw string whose trimmed value is non-empty and
whose parseFloat value is non-NaN and >= 0 passes numeric-field
validation carrying exactly the parseFloat value — including strings
with trailing garbage (parseFloat takes the longest numeric prefix)
and the string Infinity (the `!isNaN(val)` check does not exclude
Infinity). -/
theorem c10_numeric_field_accepts_nonneg_parseFloat (rm im s : String)
    (h1 : ¬ jsTrim s = "") (h2 : (parseFloat s).isNaN = false)
    (h3 : (parseFloat s).nonneg = true) :
    validateNumericField rm im s = Except.ok (parseFloat s) := by
  unfold validateNumericField
  rw [if_neg h1]
  simp [h2, h3]

/-- Witness for C10 at the two inputs named by the claim: "12abc" is
accepted with value 12 and "Infinity" is accepted with value
+Infinity. -/
theorem c10_numeric_field_accepts_nonneg_parseFloat_witness :
    (validateNumericField "Mortgage Amount is required"
        "Mortgage Amount must be a positive number" "12abc" =
          Except.ok (parseFloat "12abc") ∧ parseFloat "12abc" = JSNum.num 12) ∧
      (validateNumericField "Interest Rate is required"
          "Interest Rate must be a positive number" "Infinity" =
            Except.ok (parseFloat "Infinity") ∧ parseFloat "Infinity" = JSNum.inf true) :=
  ⟨⟨c10_numeric_field_accepts_nonneg_parseFloat _ _ _ (by decide) (by decide) (by decide),
      by decide⟩,
    ⟨c10_numeric_field_accepts_nonneg_parseFloat _ _ _ (by decide) (by decide) (by decide),
      by decide⟩⟩
